import Mathlib

/-!
Verification development for the `radar-a-chepers` repository.

The host-side uploader daemon is shallowly embedded:

* `parseI16`, `splitWhitespace`, `update`, `take_picture`, `stepCommand`,
  `runCommands` model `uploader/src/infraction_recorder.rs`;
* `upload_one` models `uploader/src/infraction_uploader.rs`;
* `monitorStore`, `firedMonitors`, `actorPortDropAborts`, `monitorCall`
  model `uploader/src/actor.rs`;
* `cliFlags`, `argsCheck` model `uploader/src/main.rs`.

Modelling conventions: Rust `f64` values are idealised as real numbers,
`i16`/`i64` values as `Int` (parsing enforces the `i16` range exactly as
`str::parse::<i16>` does), and `DateTime<Utc>` instants as `Int`
milliseconds.  Side effects (broadcast sends, file writes, uploader
notifications, log-error lines, acknowledgements) are reified as an
explicit `Effect` trace.  The external `gphoto2` invocation and the
test-mode dummy-JPEG write are modelled by a boolean capture oracle.
-/

/-! ## Parsing: `str::parse::<i16>` and `split_whitespace` -/

/-- Numeric value of an ASCII digit, `none` otherwise. -/
def digitVal (c : Char) : Option Nat :=
  if c.isDigit then some (c.toNat - 48) else none

/-- Accumulate a decimal numeral; fails on any non-digit character. -/
def parseNatDigits (cs : List Char) : Option Nat :=
  cs.foldl (fun acc c => acc.bind (fun n => (digitVal c).map (fun d => n * 10 + d))) (some 0)

/-- Lower bound of the Rust `i16` range. -/
def i16Min : Int := -32768

/-- Upper bound of the Rust `i16` range. -/
def i16Max : Int := 32767

/-- Model of Rust `str::parse::<i16>`: an optional sign, one or more ASCII
digits, overflow checked.  Checking the final value against the `i16`
range is equivalent to Rust's digit-by-digit checked arithmetic because
the accumulated magnitude is monotone in the digits consumed. -/
def parseI16 (s : String) : Option Int :=
  let withSign : Int × List Char :=
    match s.data with
    | '+' :: rest => (1, rest)
    | '-' :: rest => (-1, rest)
    | cs => (1, cs)
  match withSign with
  | (sign, ds) =>
    if ds.isEmpty then none
    else
      (parseNatDigits ds).bind (fun n =>
        let v : Int := sign * (n : Int)
        if i16Min ≤ v ∧ v ≤ i16Max then some v else none)

/-- Model of Rust `str::starts_with`.  Strings are handled through their
character lists throughout, which keeps every string operation reducible
by the kernel. -/
def strStartsWith (s p : String) : Bool :=
  p.data.isPrefixOf s.data

/-- Model of Rust `str::strip_prefix(p).unwrap()` under the guard that the
prefix is present: drop the prefix's characters. -/
def strDrop (s : String) (n : Nat) : String :=
  String.mk (s.data.drop n)

/-- Worker for `splitWhitespace`: gather maximal runs of non-whitespace
characters, the current run accumulated in reverse. -/
def splitWsGo : List Char → List Char → List String
  | [], acc => if acc.isEmpty then [] else [String.mk acc.reverse]
  | c :: cs, acc =>
    if c.isWhitespace then
      if acc.isEmpty then splitWsGo cs []
      else String.mk acc.reverse :: splitWsGo cs []
    else splitWsGo cs (c :: acc)

/-- Model of Rust `str::split_whitespace`: the maximal whitespace-free
runs, empty pieces skipped. -/
def splitWhitespace (s : String) : List String :=
  splitWsGo s.data []

/-! ## Data model of the recorder -/

/-- The `RadarConfig` struct of `infraction_recorder.rs`. -/
structure RadarConfig where
  authorized_speed : Int
  min_dist : ℝ
  max_dist : ℝ
  trigger_cooldown : Int

/-- The `TargetData` sample broadcast on the bus. -/
structure TargetData where
  speed : Int
  x : Int
  y : Int
  distance : ℝ
  triggered : Bool

/-- The `Infraction` record persisted as the JSON sidecar. -/
structure Infraction where
  recorded_speed : Int
  authorized_speed : Int
  location : String
  datetime_taken : Int
  deriving DecidableEq

/-- File base name of an evidence pair.  The source renders
`datetime_taken.to_rfc3339()`; the rendering itself is opaque to every
claim, so the instant is printed in decimal.  Only the fact that the
photo and the JSON share this base name matters. -/
def Infraction.base_name (inf : Infraction) : String :=
  toString inf.datetime_taken

/-- Path of the JPEG of an infraction, as in `Infraction::photo_path`. -/
def Infraction.photo_path (inf : Infraction) (photos_dir : String) : String :=
  photos_dir ++ "/" ++ inf.base_name ++ ".jpg"

/-- Path of the JSON sidecar, as in `Infraction::infraction_path`. -/
def Infraction.infraction_path (inf : Infraction) (photos_dir : String) : String :=
  photos_dir ++ "/" ++ inf.base_name ++ ".json"

/-- State of `InfractionRecorderInner`.  The uploader port and the
broadcast sender are handles whose uses are reified as `Effect`s, so they
carry no state here. -/
structure InfractionRecorderInner where
  authorized_speed : Int
  min_dist : ℝ
  max_dist : ℝ
  trigger_cooldown_ms : Int
  last_infraction : Option Infraction
  photos_dir : String
  test_mode : Bool

/-- Observable actions of the recorder, in program order. -/
inductive Effect where
  | publishSample (sample : TargetData)
  | writePhoto (inf : Infraction) (photos_dir : String)
  | writeJson (inf : Infraction) (photos_dir : String)
  | notifyUploader
  | logError
  | ack

/-- Commands of the recorder's mailbox.  `processLogMessage` carries its
single-shot acknowledgement channel implicitly: the acknowledgement is the
`Effect.ack` the event loop emits. -/
inductive Command where
  | processLogMessage (message : String)
  | updateConfig (cfg : RadarConfig)

/-- The `EVENTS: TARGET: ` prefix (`InfractionRecorderInner::TARGET_PREFIX`). -/
def targetMarker : String := "EVENTS: TARGET: "

/-- The remainder of a log line after `strip_prefix(TARGET_PREFIX)`. -/
def targetRest (message : String) : String :=
  strDrop message targetMarker.data.length

/-- Real-valued distance `((x as f64).powi(2) + (y as f64).powi(2)).sqrt()`. -/
noncomputable def distance (x y : Int) : ℝ :=
  Real.sqrt ((x : ℝ) ^ 2 + (y : ℝ) ^ 2)

open Classical in
/-- Boolean comparison of two reals, modelling an `f64` `<=` test. -/
noncomputable def rle (a b : ℝ) : Bool :=
  decide (a ≤ b)

/-- The `in_range` test of `update`. -/
noncomputable def inRangeB (min_dist max_dist d : ℝ) : Bool :=
  rle min_dist d && rle d max_dist

/-- The `cooldown_elapsed` test of `update`:
`now.signed_duration_since(last.datetime_taken) >= trigger_cooldown_ms`,
or `true` when no infraction was recorded yet. -/
def cooldownElapsed (st : InfractionRecorderInner) (now : Int) : Bool :=
  match st.last_infraction with
  | some inf => decide (now - inf.datetime_taken ≥ st.trigger_cooldown_ms)
  | none => true

/-- The `triggered` conjunction of `update`:
`in_range && over_speed && cooldown_elapsed`. -/
noncomputable def triggerDecision (st : InfractionRecorderInner) (now speed x y : Int) : Bool :=
  inRangeB st.min_dist st.max_dist (distance x y) &&
    decide (speed > st.authorized_speed) && cooldownElapsed st now

/-- Model of `InfractionRecorderInner::take_picture`.  Both the external
`gphoto2` call and the test-mode dummy-JPEG `fs::write` can fail; the
oracle `captureOk` decides the outcome.  On success the JPEG exists at
`inf.photo_path`. -/
def take_picture (st : InfractionRecorderInner) (captureOk : Bool) (inf : Infraction) :
    List Effect × Bool :=
  if captureOk then ([Effect.writePhoto inf st.photos_dir], true) else ([], false)

/-- Model of `InfractionRecorderInner::update`.  Both `Utc::now()` calls
inside one invocation are modelled as the single instant `now`.  Returns
the next state, the effect trace, and whether the call returned `Ok`. -/
noncomputable def update (st : InfractionRecorderInner) (now : Int) (captureOk : Bool)
    (message : String) : InfractionRecorderInner × List Effect × Bool :=
  if strStartsWith message targetMarker then
    match splitWhitespace (targetRest message) with
    | [p0, p1, p2] =>
      match parseI16 p0, parseI16 p1, parseI16 p2 with
      | some speed, some x, some y =>
        let d := distance x y
        let trig := triggerDecision st now speed x y
        let sample : TargetData := ⟨speed, x, y, d, trig⟩
        if trig then
          let inf : Infraction := ⟨speed, st.authorized_speed, "Lorgues", now⟩
          let pic := take_picture st captureOk inf
          if pic.2 then
            ({ st with last_infraction := some inf },
              Effect.publishSample sample :: pic.1 ++
                [Effect.writeJson inf st.photos_dir, Effect.notifyUploader],
              true)
          else
            (st, Effect.publishSample sample :: pic.1, false)
        else
          (st, [Effect.publishSample sample], true)
      | _, _, _ => (st, [], false)
    | _ => (st, [], true)
  else
    (st, [], true)

/-- One turn of `InfractionRecorderInner::event_loop`: a
`ProcessLogMessage` runs `update`, logs on `Err`, and always signals the
acknowledgement channel; an `UpdateConfig` overwrites the four config
fields. -/
noncomputable def stepCommand (st : InfractionRecorderInner) (now : Int) (captureOk : Bool) :
    Command → InfractionRecorderInner × List Effect
  | Command.processLogMessage message =>
    match update st now captureOk message with
    | (st', effs, ok) => (st', effs ++ (if ok then [] else [Effect.logError]) ++ [Effect.ack])
  | Command.updateConfig cfg =>
    ({ st with
        authorized_speed := cfg.authorized_speed
        min_dist := cfg.min_dist
        max_dist := cfg.max_dist
        trigger_cooldown_ms := cfg.trigger_cooldown }, [])

/-- The event loop over a list of commands, each tagged with the instant
at which it is processed and the capture oracle for that turn.  Returns
the final state and the concatenated effect trace. -/
noncomputable def runCommands (st : InfractionRecorderInner) :
    List (Int × Bool × Command) → InfractionRecorderInner × List Effect
  | [] => (st, [])
  | (now, captureOk, cmd) :: rest =>
    match stepCommand st now captureOk cmd with
    | (st', effs) =>
      match runCommands st' rest with
      | (st'', effs') => (st'', effs ++ effs')

/-- Recogniser for broadcast-sample effects. -/
def isPublish : Effect → Bool
  | Effect.publishSample _ => true
  | _ => false

/-- Recogniser for acknowledgement effects. -/
def isAck : Effect → Bool
  | Effect.ack => true
  | _ => false

/-! ## Uploader model (`infraction_uploader.rs`) -/

/-- On-disk status of one evidence pair as `upload_one` observes it:
whether the `.json` file can be read, whether its text deserialises as an
`Infraction`, and whether the sibling `.jpg` can be read. -/
structure EvidenceFiles where
  jsonPresent : Bool
  jsonParses : Bool
  jpgPresent : Bool
  deriving DecidableEq

/-- Outcome of the multipart POST: either the transport fails, or a
response arrives with a status code and a body that does or does not parse
as JSON (`resp.json::<serde_json::Value>()`). -/
inductive HttpOutcome where
  | transportError
  | response (status : Nat) (bodyParses : Bool)
  deriving DecidableEq

/-- Model of `reqwest::StatusCode::is_success`: `200..=299`. -/
def isSuccessStatus (status : Nat) : Bool :=
  200 ≤ status && status < 300

/-- Model of `InfractionUploaderInner::upload_one`, in source order: read
the JSON text, deserialise it, read the photo, POST, and only on a
successful status *after* the response body has been parsed delete first
the JSON and then the photo.  Every early `?` return leaves the files
untouched.  Returns the resulting files and whether the call returned
`Ok`. -/
def upload_one (files : EvidenceFiles) (http : HttpOutcome) : EvidenceFiles × Bool :=
  if !files.jsonPresent then (files, false)
  else if !files.jsonParses then (files, false)
  else if !files.jpgPresent then (files, false)
  else
    match http with
    | HttpOutcome.transportError => (files, false)
    | HttpOutcome.response status bodyParses =>
      if isSuccessStatus status then
        if bodyParses then
          ({ files with jsonPresent := false, jpgPresent := false }, true)
        else (files, false)
      else (files, false)

/-- Condition under which `upload_one` reaches the two `remove_file`
calls: a delivered response with a 2xx status whose body parses as JSON. -/
def httpAccepted : HttpOutcome → Bool
  | HttpOutcome.transportError => false
  | HttpOutcome.response status bodyParses => isSuccessStatus status && bodyParses

/-! ## Actor runtime model (`actor.rs`) -/

/-- The three ways an actor task can stop: its event loop returns, the
task is aborted, or the event loop panics.  In all three Rust drops the
`MonitorGuard` created in `outer_event_loop` (scope exit, unwinding, and
future drop respectively). -/
inductive TerminationPath where
  | normalReturn
  | aborted
  | panicked

/-- Commands of the monitor side channel. -/
inductive RegCommand (α : Type) where
  | monitor (id : Nat) (payload : α)
  | demonitor (id : Nat)

/-- Insertion into the `HashMap<MonitorId, Monitor>`: replace any entry
with the same key. -/
def insertMonitor {α : Type} (store : List (Nat × α)) (id : Nat) (payload : α) :
    List (Nat × α) :=
  store.filter (fun e => e.1 ≠ id) ++ [(id, payload)]

/-- One step of the side-channel task spawned by `MonitorGuard::new`. -/
def regStep {α : Type} (store : List (Nat × α)) : RegCommand α → List (Nat × α)
  | RegCommand.monitor id payload => insertMonitor store id payload
  | RegCommand.demonitor id => store.filter (fun e => e.1 ≠ id)

/-- Contents of the monitor map after processing a sequence of
registrations and cancellations. -/
def monitorStore {α : Type} (cmds : List (RegCommand α)) : List (Nat × α) :=
  cmds.foldl regStep []

/-- Model of `MonitorGuard::drop`: whatever the termination path, the map
is drained and every stored closure is invoked, in order, once.  The
returned list is the sequence of invocations. -/
def firedMonitors {α : Type} (path : TerminationPath) (cmds : List (RegCommand α)) :
    List (Nat × α) :=
  match path with
  | TerminationPath.normalReturn => monitorStore cmds
  | TerminationPath.aborted => monitorStore cmds
  | TerminationPath.panicked => monitorStore cmds

/-- Model of `impl Drop for ActorPort`: read
`command_sender.strong_count()` and abort exactly when it equals 2 (this
port plus the self-port cloned into the task by `start`). -/
def actorPortDropAborts (strong_count : Nat) : Bool :=
  strong_count == 2

/-- Abort flags produced by dropping, one after the other, `externals`
externally held port clones while the actor's self-port stays alive; the
strong count seen by each drop is the external count before the drop plus
one for the self-port. -/
def dropExternals : Nat → List Bool
  | 0 => []
  | Nat.succ k => actorPortDropAborts (Nat.succ k + 1) :: dropExternals k

/-- What `ActorPort::monitor` did when it returned. -/
inductive RegistrationOutcome where
  | storedInGuardMap
  | firedDuringCall
  deriving DecidableEq

/-- Model of `ActorPort::monitor`: sending the registration on the other
port's monitor channel succeeds while the monitored actor is alive (the
call then awaits the acknowledgement and the closure is stored); when the
channel is closed the `SendError` hands the closure back and it is invoked
on the spot, sending `command` to the registering port before the call
returns.  The second component lists the commands sent to the registering
port during the call itself. -/
def monitorCall {β : Type} (otherAlive : Bool) (command : β) :
    RegistrationOutcome × List β :=
  if otherAlive then (RegistrationOutcome.storedInGuardMap, [])
  else (RegistrationOutcome.firedDuringCall, [command])

/-! ## CLI model (`main.rs`) -/

/-- The long flags derived from the `Args` struct of `main.rs`: its five
fields, every one of a non-`Option` type and without a default, so all of
them are required. -/
def cliFlags : List String :=
  ["--api-endpoint", "--api-key", "--serial-port", "--elf-path", "--photos-dir"]

/-- Model of `Args::check`, the only validation `main` performs before the
fallible I/O: `Ok` exactly when the photos directory exists and is a
directory.  `main` propagates the error, exiting non-zero. -/
def argsCheck (photos_dir_exists photos_dir_is_dir : Bool) : Bool :=
  photos_dir_exists && photos_dir_is_dir

/-! ## Helper lemmas about `update` -/

theorem triggerDecision_eq_true_iff (st : InfractionRecorderInner) (now speed x y : Int) :
    triggerDecision st now speed x y = true ↔
      ((st.min_dist ≤ distance x y ∧ distance x y ≤ st.max_dist) ∧
        speed > st.authorized_speed ∧
        (st.last_infraction = none ∨
          ∃ inf, st.last_infraction = some inf ∧
            now - inf.datetime_taken ≥ st.trigger_cooldown_ms)) := by
  cases h : st.last_infraction with
  | none =>
    simp [triggerDecision, inRangeB, rle, cooldownElapsed, h, and_assoc]
  | some inf =>
    simp [triggerDecision, inRangeB, rle, cooldownElapsed, h, and_assoc]

theorem update_of_not_target (st : InfractionRecorderInner) (now : Int) (captureOk : Bool)
    (message : String) (h : strStartsWith message targetMarker = false) :
    update st now captureOk message = (st, [], true) := by
  simp [update, h]

theorem update_of_bad_arity (st : InfractionRecorderInner) (now : Int) (captureOk : Bool)
    (message : String) (hpre : strStartsWith message targetMarker = true)
    (hlen : (splitWhitespace (targetRest message)).length ≠ 3) :
    update st now captureOk message = (st, [], true) := by
  rcases hsp : splitWhitespace (targetRest message) with
    _ | ⟨a, _ | ⟨b, _ | ⟨c, _ | ⟨d, t⟩⟩⟩⟩ <;>
    simp [update, hpre, hsp] <;> simp [hsp] at hlen

theorem update_of_parse_fail (st : InfractionRecorderInner) (now : Int) (captureOk : Bool)
    (message : String) (p0 p1 p2 : String)
    (hpre : strStartsWith message targetMarker = true)
    (hsp : splitWhitespace (targetRest message) = [p0, p1, p2])
    (hfail : parseI16 p0 = none ∨ parseI16 p1 = none ∨ parseI16 p2 = none) :
    update st now captureOk message = (st, [], false) := by
  cases h0 : parseI16 p0 <;> cases h1 : parseI16 p1 <;> cases h2 : parseI16 p2 <;>
    simp [update, hpre, hsp, h0, h1, h2] <;> simp [h0, h1, h2] at hfail

theorem update_not_triggered (st : InfractionRecorderInner) (now : Int) (captureOk : Bool)
    (message : String) (p0 p1 p2 : String) (speed x y : Int)
    (hpre : strStartsWith message targetMarker = true)
    (hsp : splitWhitespace (targetRest message) = [p0, p1, p2])
    (h0 : parseI16 p0 = some speed) (h1 : parseI16 p1 = some x) (h2 : parseI16 p2 = some y)
    (ht : triggerDecision st now speed x y = false) :
    update st now captureOk message =
      (st, [Effect.publishSample ⟨speed, x, y, distance x y, false⟩], true) := by
  simp [update, hpre, hsp, h0, h1, h2, ht]

theorem update_triggered_ok (st : InfractionRecorderInner) (now : Int)
    (message : String) (p0 p1 p2 : String) (speed x y : Int)
    (hpre : strStartsWith message targetMarker = true)
    (hsp : splitWhitespace (targetRest message) = [p0, p1, p2])
    (h0 : parseI16 p0 = some speed) (h1 : parseI16 p1 = some x) (h2 : parseI16 p2 = some y)
    (ht : triggerDecision st now speed x y = true) :
    update st now true message =
      ({ st with last_infraction := some ⟨speed, st.authorized_speed, "Lorgues", now⟩ },
        [Effect.publishSample ⟨speed, x, y, distance x y, true⟩,
          Effect.writePhoto ⟨speed, st.authorized_speed, "Lorgues", now⟩ st.photos_dir,
          Effect.writeJson ⟨speed, st.authorized_speed, "Lorgues", now⟩ st.photos_dir,
          Effect.notifyUploader], true) := by
  simp [update, hpre, hsp, h0, h1, h2, ht, take_picture]

theorem update_triggered_capture_fail (st : InfractionRecorderInner) (now : Int)
    (message : String) (p0 p1 p2 : String) (speed x y : Int)
    (hpre : strStartsWith message targetMarker = true)
    (hsp : splitWhitespace (targetRest message) = [p0, p1, p2])
    (h0 : parseI16 p0 = some speed) (h1 : parseI16 p1 = some x) (h2 : parseI16 p2 = some y)
    (ht : triggerDecision st now speed x y = true) :
    update st now false message =
      (st, [Effect.publishSample ⟨speed, x, y, distance x y, true⟩], false) := by
  simp [update, hpre, hsp, h0, h1, h2, ht, take_picture]

theorem update_effects_shape (st : InfractionRecorderInner) (now : Int) (captureOk : Bool)
    (message : String) :
    (update st now captureOk message).2.1 = [] ∨
    (∃ sample, (update st now captureOk message).2.1 = [Effect.publishSample sample]) ∨
    (∃ sample inf, (update st now captureOk message).2.1 =
      [Effect.publishSample sample, Effect.writePhoto inf st.photos_dir,
        Effect.writeJson inf st.photos_dir, Effect.notifyUploader]) := by
  cases hpre : strStartsWith message targetMarker with
  | false => left; rw [update_of_not_target st now captureOk message hpre]
  | true =>
    rcases hsp : splitWhitespace (targetRest message) with
      _ | ⟨a, _ | ⟨b, _ | ⟨c, _ | ⟨d, t⟩⟩⟩⟩
    · left; rw [update_of_bad_arity st now captureOk message hpre (by rw [hsp]; simp)]
    · left; rw [update_of_bad_arity st now captureOk message hpre (by rw [hsp]; simp)]
    · left; rw [update_of_bad_arity st now captureOk message hpre (by rw [hsp]; simp)]
    · cases h0 : parseI16 a with
      | none =>
        left
        rw [update_of_parse_fail st now captureOk message a b c hpre hsp (Or.inl h0)]
      | some speed =>
        cases h1 : parseI16 b with
        | none =>
          left
          rw [update_of_parse_fail st now captureOk message a b c hpre hsp (Or.inr (Or.inl h1))]
        | some x =>
          cases h2 : parseI16 c with
          | none =>
            left
            rw [update_of_parse_fail st now captureOk message a b c hpre hsp
              (Or.inr (Or.inr h2))]
          | some y =>
            cases ht : triggerDecision st now speed x y with
            | false =>
              right; left
              exact ⟨_, by
                rw [update_not_triggered st now captureOk message a b c speed x y hpre hsp
                  h0 h1 h2 ht]⟩
            | true =>
              cases captureOk with
              | true =>
                right; right
                exact ⟨_, _, by
                  rw [update_triggered_ok st now message a b c speed x y hpre hsp h0 h1 h2 ht]⟩
              | false =>
                right; left
                exact ⟨_, by
                  rw [update_triggered_capture_fail st now message a b c speed x y hpre hsp
                    h0 h1 h2 ht]⟩
    · left; rw [update_of_bad_arity st now captureOk message hpre (by rw [hsp]; simp)]

/-- The half-written-evidence invariant over a trace: every JSON write is
preceded by the write of the sibling photo of the same infraction in the
same directory. -/
def photoBeforeJson (tr : List Effect) : Prop :=
  ∀ (j : Nat) (hj : j < tr.length) (inf : Infraction) (d : String),
    tr[j] = Effect.writeJson inf d →
    ∃ (i : Nat) (hi : i < tr.length), i < j ∧ tr[i] = Effect.writePhoto inf d

theorem photoBeforeJson_of_no_json (tr : List Effect)
    (h : ∀ inf d, Effect.writeJson inf d ∉ tr) : photoBeforeJson tr := by
  intro j hj inf d hEq
  exact absurd (hEq ▸ List.getElem_mem hj) (h inf d)

theorem photoBeforeJson_append {a b : List Effect}
    (ha : photoBeforeJson a) (hb : photoBeforeJson b) :
    photoBeforeJson (a ++ b) := by
  intro j hj inf d hEq
  rcases Nat.lt_or_ge j a.length with hja | hja
  · obtain ⟨i, hi, hij, hPhoto⟩ := ha j hja inf d (by rw [← hEq, List.getElem_append_left hja])
    exact ⟨i, by simp; omega, hij, by rw [List.getElem_append_left hi]; exact hPhoto⟩
  · have hjb : j - a.length < b.length := by simp at hj; omega
    obtain ⟨i, hi, hij, hPhoto⟩ := hb (j - a.length) hjb inf d
      (by rw [← hEq, List.getElem_append_right hja])
    refine ⟨a.length + i, by simp; omega, by omega, ?_⟩
    rw [List.getElem_append_right (by omega)]
    simpa using hPhoto

theorem stepCommand_updateConfig (st : InfractionRecorderInner) (now : Int) (captureOk : Bool)
    (cfg : RadarConfig) :
    stepCommand st now captureOk (Command.updateConfig cfg) =
      ({ st with
          authorized_speed := cfg.authorized_speed
          min_dist := cfg.min_dist
          max_dist := cfg.max_dist
          trigger_cooldown_ms := cfg.trigger_cooldown }, []) := rfl

theorem stepCommand_processLogMessage (st : InfractionRecorderInner) (now : Int)
    (captureOk : Bool) (message : String) :
    stepCommand st now captureOk (Command.processLogMessage message) =
      ((update st now captureOk message).1,
        (update st now captureOk message).2.1 ++
          (if (update st now captureOk message).2.2 then [] else [Effect.logError]) ++
          [Effect.ack]) := by
  rcases hup : update st now captureOk message with ⟨st', effs, ok⟩
  simp [stepCommand, hup]

theorem photoBeforeJson_step (st : InfractionRecorderInner) (now : Int) (captureOk : Bool)
    (cmd : Command) : photoBeforeJson (stepCommand st now captureOk cmd).2 := by
  cases cmd with
  | updateConfig cfg =>
    rw [stepCommand_updateConfig]
    exact photoBeforeJson_of_no_json _ (by simp)
  | processLogMessage message =>
    rw [stepCommand_processLogMessage]
    rw [List.append_assoc]
    apply photoBeforeJson_append
    · rcases update_effects_shape st now captureOk message with h | ⟨s, h⟩ | ⟨s, inf, h⟩ <;>
        rw [h]
      · exact photoBeforeJson_of_no_json _ (by simp)
      · exact photoBeforeJson_of_no_json _ (by simp)
      · intro j hj inf' d hEq
        simp at hj
        interval_cases j
        · simp at hEq
        · simp at hEq
        · simp at hEq
          refine ⟨1, by simp, by omega, ?_⟩
          simp [hEq.1, hEq.2]
        · simp at hEq
    · exact photoBeforeJson_of_no_json _
        (by cases h : (update st now captureOk message).2.2 <;> simp [h])

theorem photoBeforeJson_run (st : InfractionRecorderInner)
    (inputs : List (Int × Bool × Command)) :
    photoBeforeJson (runCommands st inputs).2 := by
  induction inputs generalizing st with
  | nil =>
    intro j hj inf d hEq
    simp [runCommands] at hj
  | cons head rest ih =>
    rcases head with ⟨now, captureOk, cmd⟩
    rcases hstep : stepCommand st now captureOk cmd with ⟨st', effs⟩
    have h1 : photoBeforeJson effs := by
      have h := photoBeforeJson_step st now captureOk cmd
      rwa [hstep] at h
    rcases hrun : runCommands st' rest with ⟨st'', effs'⟩
    have h2 : photoBeforeJson effs' := by
      have h := ih st'
      rwa [hrun] at h
    have hout : runCommands st ((now, captureOk, cmd) :: rest) = (st'', effs ++ effs') := by
      simp [runCommands, hstep, hrun]
    rw [hout]
    exact photoBeforeJson_append h1 h2

theorem update_countP_isAck (st : InfractionRecorderInner) (now : Int) (captureOk : Bool)
    (message : String) :
    (update st now captureOk message).2.1.countP isAck = 0 := by
  rcases update_effects_shape st now captureOk message with h | ⟨s, h⟩ | ⟨s, inf, h⟩ <;>
    simp [h, isAck]

theorem monitorStore_keys_nodup {α : Type} (cmds : List (RegCommand α)) :
    ((monitorStore cmds).map Prod.fst).Nodup := by
  suffices h : ∀ store : List (Nat × α), (store.map Prod.fst).Nodup →
      ((cmds.foldl regStep store).map Prod.fst).Nodup from h [] (by simp)
  induction cmds with
  | nil => intro store h; simpa using h
  | cons c rest ih =>
    intro store h
    simp only [List.foldl_cons]
    apply ih
    cases c with
    | demonitor id =>
      exact ((List.filter_sublist store).map Prod.fst).nodup h
    | monitor id payload =>
      unfold regStep insertMonitor
      rw [List.map_append]
      apply List.Nodup.append
      · exact ((List.filter_sublist store).map Prod.fst).nodup h
      · simp
      · intro k hk1 hk2
        simp only [List.map_cons, List.map_nil, List.mem_singleton] at hk2
        subst hk2
        simp only [List.mem_map, List.mem_filter, decide_eq_true_eq] at hk1
        obtain ⟨e, ⟨_, hne⟩, hfst⟩ := hk1
        exact hne hfst

theorem dropExternals_spec : ∀ n : Nat, 1 ≤ n →
    (dropExternals n).getLast? = some true ∧ (dropExternals n).count true = 1
  | 1, _ => by decide
  | (n + 2), _ => by
    obtain ⟨ihLast, ihCount⟩ := dropExternals_spec (n + 1) (by omega)
    have hfalse : actorPortDropAborts (n + 2 + 1) = false := by
      simp only [actorPortDropAborts, beq_eq_false_iff_ne]
      omega
    have hshape : dropExternals (n + 2) =
        actorPortDropAborts (n + 2 + 1) :: dropExternals (n + 1) := rfl
    have hshape1 : dropExternals (n + 1) =
        actorPortDropAborts (n + 1 + 1) :: dropExternals n := rfl
    constructor
    · rw [hshape, hshape1, List.getLast?_cons_cons, ← hshape1, ihLast]
    · rw [hshape, List.count_cons, ihCount, hfalse]
      simp

theorem distance_3000_4000 : distance 3000 4000 = 5000 := by
  unfold distance
  rw [show ((3000 : Int) : ℝ) ^ 2 + ((4000 : Int) : ℝ) ^ 2 = (5000 : ℝ) ^ 2 by norm_num]
  exact Real.sqrt_sq (by norm_num)

/-- A recorder state with the initial defaults of
`InfractionRecorderInner::new` (`authorized_speed` 25 from the CLI). -/
def st0 : InfractionRecorderInner :=
  { authorized_speed := 25
    min_dist := 0
    max_dist := 10000
    trigger_cooldown_ms := 1000
    last_infraction := none
    photos_dir := "photos"
    test_mode := false }

/-- A concrete over-speed in-range target line. -/
def m0 : String := "EVENTS: TARGET: 40 3000 4000"

theorem trigger_demo : triggerDecision st0 0 40 3000 4000 = true :=
  (triggerDecision_eq_true_iff st0 0 40 3000 4000).mpr
    ⟨⟨by rw [distance_3000_4000]; norm_num [st0],
      by rw [distance_3000_4000]; norm_num [st0]⟩,
      by norm_num [st0], Or.inl rfl⟩

/-! ## Claim theorems -/

/-- C1: for every log message of the form `EVENTS: TARGET: <speed> <x> <y>`
with three `i16`-parsable tokens, `update` publishes exactly one
`TargetData` sample; its distance is `sqrt(x^2 + y^2)` and its triggered
flag is the conjunction of in-range, strict over-speed, and
cooldown-elapsed (vacuously true without a previous infraction).  The
sample is published whether or not the trigger fired. -/
theorem target_sample_publication (st : InfractionRecorderInner) (now : Int) (captureOk : Bool)
    (message : String) (p0 p1 p2 : String) (speed x y : Int)
    (hpre : strStartsWith message targetMarker = true)
    (hsp : splitWhitespace (targetRest message) = [p0, p1, p2])
    (h0 : parseI16 p0 = some speed) (h1 : parseI16 p1 = some x) (h2 : parseI16 p2 = some y) :
    (update st now captureOk message).2.1.countP isPublish = 1 ∧
    Effect.publishSample ⟨speed, x, y, distance x y, triggerDecision st now speed x y⟩
      ∈ (update st now captureOk message).2.1 ∧
    (triggerDecision st now speed x y = true ↔
      ((st.min_dist ≤ distance x y ∧ distance x y ≤ st.max_dist) ∧
        speed > st.authorized_speed ∧
        (st.last_infraction = none ∨
          ∃ inf, st.last_infraction = some inf ∧
            now - inf.datetime_taken ≥ st.trigger_cooldown_ms))) := by
  refine ⟨?_, ?_, triggerDecision_eq_true_iff st now speed x y⟩
  · cases ht : triggerDecision st now speed x y with
    | false =>
      rw [update_not_triggered st now captureOk message p0 p1 p2 speed x y hpre hsp h0 h1 h2 ht]
      simp [isPublish]
    | true =>
      cases captureOk with
      | true =>
        rw [update_triggered_ok st now message p0 p1 p2 speed x y hpre hsp h0 h1 h2 ht]
        simp [isPublish]
      | false =>
        rw [update_triggered_capture_fail st now message p0 p1 p2 speed x y hpre hsp h0 h1 h2 ht]
        simp [isPublish]
  · cases ht : triggerDecision st now speed x y with
    | false =>
      rw [update_not_triggered st now captureOk message p0 p1 p2 speed x y hpre hsp h0 h1 h2 ht]
      simp
    | true =>
      cases captureOk with
      | true =>
        rw [update_triggered_ok st now message p0 p1 p2 speed x y hpre hsp h0 h1 h2 ht]
        simp
      | false =>
        rw [update_triggered_capture_fail st now message p0 p1 p2 speed x y hpre hsp h0 h1 h2 ht]
        simp

/-- Witness for C1 at the defaults and the line `EVENTS: TARGET: 40 3000 4000`. -/
theorem target_sample_publication_witness :
    (strStartsWith m0 targetMarker = true ∧
      splitWhitespace (targetRest m0) = ["40", "3000", "4000"] ∧
      parseI16 "40" = some 40 ∧ parseI16 "3000" = some 3000 ∧ parseI16 "4000" = some 4000) ∧
    ((update st0 0 true m0).2.1.countP isPublish = 1 ∧
      Effect.publishSample ⟨40, 3000, 4000, distance 3000 4000,
        triggerDecision st0 0 40 3000 4000⟩ ∈ (update st0 0 true m0).2.1 ∧
      (triggerDecision st0 0 40 3000 4000 = true ↔
        ((st0.min_dist ≤ distance 3000 4000 ∧ distance 3000 4000 ≤ st0.max_dist) ∧
          (40 : Int) > st0.authorized_speed ∧
          (st0.last_infraction = none ∨
            ∃ inf, st0.last_infraction = some inf ∧
              (0 : Int) - inf.datetime_taken ≥ st0.trigger_cooldown_ms)))) :=
  ⟨⟨by decide, by decide, by decide, by decide, by decide⟩,
    target_sample_publication st0 0 true m0 "40" "3000" "4000" 40 3000 4000
      (by decide) (by decide) (by decide) (by decide) (by decide)⟩

/-- C2: over any run of the recorder's event loop, the trace satisfies the
half-written-evidence invariant: every JSON sidecar write is preceded by
the photo write of the same infraction in the same directory, and the two
files are named by the infraction timestamp, differing only in extension. -/
theorem photo_written_before_json (st : InfractionRecorderInner)
    (inputs : List (Int × Bool × Command)) :
    photoBeforeJson (runCommands st inputs).2 ∧
    ∀ (inf : Infraction) (d : String),
      inf.photo_path d = d ++ "/" ++ inf.base_name ++ ".jpg" ∧
      inf.infraction_path d = d ++ "/" ++ inf.base_name ++ ".json" :=
  ⟨photoBeforeJson_run st inputs, fun _ _ => ⟨rfl, rfl⟩⟩

/-- C3: when a target event triggers but the photo capture fails, the turn
publishes the sample, logs the error and acknowledges, but writes no JSON,
does not notify the uploader, and leaves the whole state — in particular
`last_infraction` — unchanged, so subsequent commands are processed from
the unchanged state. -/
theorem capture_failure_aborts_trigger (st : InfractionRecorderInner) (now : Int)
    (message : String) (p0 p1 p2 : String) (speed x y : Int)
    (hpre : strStartsWith message targetMarker = true)
    (hsp : splitWhitespace (targetRest message) = [p0, p1, p2])
    (h0 : parseI16 p0 = some speed) (h1 : parseI16 p1 = some x) (h2 : parseI16 p2 = some y)
    (ht : triggerDecision st now speed x y = true)
    (rest : List (Int × Bool × Command)) :
    runCommands st ((now, false, Command.processLogMessage message) :: rest) =
      ((runCommands st rest).1,
        Effect.publishSample ⟨speed, x, y, distance x y, true⟩ :: Effect.logError ::
          Effect.ack :: (runCommands st rest).2) := by
  have hstep : stepCommand st now false (Command.processLogMessage message) =
      (st, [Effect.publishSample ⟨speed, x, y, distance x y, true⟩, Effect.logError,
        Effect.ack]) := by
    rw [stepCommand_processLogMessage,
      update_triggered_capture_fail st now message p0 p1 p2 speed x y hpre hsp h0 h1 h2 ht]
    simp
  rcases hrun : runCommands st rest with ⟨st'', effs'⟩
  simp [runCommands, hstep, hrun]

/-- Witness for C3 at the defaults, a failing capture, and an empty tail. -/
theorem capture_failure_aborts_trigger_witness :
    (strStartsWith m0 targetMarker = true ∧
      splitWhitespace (targetRest m0) = ["40", "3000", "4000"] ∧
      parseI16 "40" = some 40 ∧ parseI16 "3000" = some 3000 ∧ parseI16 "4000" = some 4000 ∧
      triggerDecision st0 0 40 3000 4000 = true) ∧
    runCommands st0 [(0, false, Command.processLogMessage m0)] =
      ((runCommands st0 []).1,
        Effect.publishSample ⟨40, 3000, 4000, distance 3000 4000, true⟩ :: Effect.logError ::
          Effect.ack :: (runCommands st0 []).2) :=
  ⟨⟨by decide, by decide, by decide, by decide, by decide, trigger_demo⟩,
    capture_failure_aborts_trigger st0 0 m0 "40" "3000" "4000" 40 3000 4000
      (by decide) (by decide) (by decide) (by decide) (by decide) trigger_demo []⟩

theorem countP_eq_one_of_nodup_mem {γ : Type} [DecidableEq γ] {l : List γ} {a : γ}
    (nd : l.Nodup) (h : a ∈ l) : l.countP (fun b => decide (b = a)) = 1 := by
  induction l with
  | nil => cases h
  | cons b t ih =>
    rw [List.countP_cons]
    rcases List.mem_cons.mp h with rfl | hmem
    · have ha : a ∉ t := (List.nodup_cons.mp nd).1
      rw [List.countP_eq_zero.mpr]
      · simp
      · intro x hx
        simp only [decide_eq_true_eq]
        rintro rfl
        exact ha hx
    · have hne : b ≠ a := by
        rintro rfl
        exact (List.nodup_cons.mp nd).1 hmem
      rw [ih (List.nodup_cons.mp nd).2 hmem]
      simp [hne]

/-- C4: whatever the termination path (normal return, abort, panic), the
`MonitorGuard` drop drains the monitor map, and every monitor registered
and not cancelled at termination time is invoked exactly once. -/
theorem monitors_fire_exactly_once {α : Type} [DecidableEq α] (path : TerminationPath)
    (cmds : List (RegCommand α)) (entry : Nat × α)
    (hreg : entry ∈ monitorStore cmds) :
    (firedMonitors path cmds).countP (fun e => decide (e = entry)) = 1 := by
  have hnd : (monitorStore cmds).Nodup := (monitorStore_keys_nodup cmds).of_map _
  cases path <;> exact countP_eq_one_of_nodup_mem hnd hreg

/-- Witness for C4: a cancelled and a surviving registration, on the panic
path. -/
theorem monitors_fire_exactly_once_witness :
    ((1, 20) : Nat × Nat) ∈ monitorStore
      [RegCommand.monitor 0 10, RegCommand.monitor 1 20, RegCommand.demonitor 0] ∧
    (firedMonitors TerminationPath.panicked
      [RegCommand.monitor 0 10, RegCommand.monitor 1 20, RegCommand.demonitor 0]).countP
        (fun e => decide (e = ((1, 20) : Nat × Nat))) = 1 :=
  ⟨by decide, monitors_fire_exactly_once TerminationPath.panicked _ _ (by decide)⟩

/-- C5: dropping external port clones one by one, the abort fires exactly
once, at the drop of the last externally held clone (strong count 2: the
dropped clone plus the actor's self-reference); while more externals
remain no drop aborts, so the self-reference alone never keeps the actor
alive. -/
theorem last_external_drop_aborts (externals : Nat) (h : 1 ≤ externals) :
    (dropExternals externals).getLast? = some true ∧
    (dropExternals externals).count true = 1 ∧
    actorPortDropAborts (1 + 1) = true ∧
    (∀ k, 2 ≤ k → actorPortDropAborts (k + 1) = false) := by
  obtain ⟨hLast, hCount⟩ := dropExternals_spec externals h
  refine ⟨hLast, hCount, rfl, fun k hk => ?_⟩
  simp only [actorPortDropAborts, beq_eq_false_iff_ne]
  omega

/-- Witness for C5 with three external clones. -/
theorem last_external_drop_aborts_witness :
    1 ≤ 3 ∧
    ((dropExternals 3).getLast? = some true ∧
      (dropExternals 3).count true = 1 ∧
      actorPortDropAborts (1 + 1) = true ∧
      (∀ k, 2 ≤ k → actorPortDropAborts (k + 1) = false)) :=
  ⟨by decide, last_external_drop_aborts 3 (by decide)⟩

/-- C6 counterexample: the backend answers HTTP 200 but with a body that
does not parse as JSON; `upload_one` returns at `resp.json().await?`
before reaching `remove_file`, so both files survive a 2xx response. -/
theorem upload_one_2xx_unparsed_body_keeps_files :
    (upload_one ⟨true, true, true⟩ (HttpOutcome.response 200 false)).1.jsonPresent = true ∧
    (upload_one ⟨true, true, true⟩ (HttpOutcome.response 200 false)).1.jpgPresent = true := by
  decide

/-- C6 (amended): with a readable, well-formed evidence pair, both files
are deleted exactly when a response arrives whose status is 2xx and whose
body parses as JSON; on a transport error, a non-2xx status, or a 2xx
response with an unparseable body, both files are left in place. -/
theorem upload_one_purge_characterisation (files : EvidenceFiles) (http : HttpOutcome) :
    (upload_one files http).1 =
      (if files.jsonPresent && files.jsonParses && files.jpgPresent && httpAccepted http
        then { files with jsonPresent := false, jpgPresent := false } else files) ∧
    (upload_one files http).2 =
      (files.jsonPresent && files.jsonParses && files.jpgPresent && httpAccepted http) := by
  rcases files with ⟨jsonPresent, jsonParses, jpgPresent⟩
  cases http with
  | transportError =>
    cases jsonPresent <;> cases jsonParses <;> cases jpgPresent <;>
      simp [upload_one, httpAccepted]
  | response status bodyParses =>
    cases jsonPresent <;> cases jsonParses <;> cases jpgPresent <;> cases bodyParses <;>
      cases hs : isSuccessStatus status <;>
      simp [upload_one, httpAccepted, hs]

/-- C7: registering a monitor on an actor whose monitor channel is closed
(the actor is already dead) invokes the closure inside the registration
call itself: the command is sent to the registering port before
`ActorPort::monitor` returns. -/
theorem monitor_on_dead_actor_fires_synchronously {β : Type} (command : β)
    (otherAlive : Bool) (h : otherAlive = false) :
    monitorCall otherAlive command = (RegistrationOutcome.firedDuringCall, [command]) := by
  subst h
  rfl

/-- Witness for C7 with a concrete command. -/
theorem monitor_on_dead_actor_fires_synchronously_witness :
    (false = false) ∧
    monitorCall false (7 : Nat) = (RegistrationOutcome.firedDuringCall, [7]) :=
  ⟨rfl, monitor_on_dead_actor_fires_synchronously 7 false rfl⟩

/-- C8 counterexample: a prefixed line whose remainder has two tokens is
ignored silently — `update` returns `Ok` and the event loop logs nothing,
while the claim says such a line is logged. -/
theorem arity_mismatch_is_not_logged :
    stepCommand st0 0 true (Command.processLogMessage "EVENTS: TARGET: 1 2") =
      (st0, [Effect.ack]) ∧
    Effect.logError ∉
      (stepCommand st0 0 true (Command.processLogMessage "EVENTS: TARGET: 1 2")).2 := by
  have hb : stepCommand st0 0 true (Command.processLogMessage "EVENTS: TARGET: 1 2") =
      (st0, [Effect.ack]) := by
    rw [stepCommand_processLogMessage,
      update_of_bad_arity st0 0 true "EVENTS: TARGET: 1 2" (by decide) (by decide)]
    simp
  refine ⟨hb, ?_⟩
  rw [hb]
  intro hmem
  rcases hmem with _ | ⟨_, h⟩
  cases h

/-- C8 (amended): a line without the `EVENTS: TARGET: ` prefix, and a
prefixed line whose remainder does not split into exactly three tokens,
are ignored silently; a token that fails `i16` parsing makes `update`
return `Err`, which the event loop logs and ignores; and in every case —
these included — the acknowledgement is signalled exactly once. -/
theorem process_log_message_dispatch (st : InfractionRecorderInner) (now : Int)
    (captureOk : Bool) :
    (∀ message, strStartsWith message targetMarker = false →
      stepCommand st now captureOk (Command.processLogMessage message) = (st, [Effect.ack])) ∧
    (∀ message, strStartsWith message targetMarker = true →
      (splitWhitespace (targetRest message)).length ≠ 3 →
      stepCommand st now captureOk (Command.processLogMessage message) = (st, [Effect.ack])) ∧
    (∀ message p0 p1 p2, strStartsWith message targetMarker = true →
      splitWhitespace (targetRest message) = [p0, p1, p2] →
      (parseI16 p0 = none ∨ parseI16 p1 = none ∨ parseI16 p2 = none) →
      stepCommand st now captureOk (Command.processLogMessage message) =
        (st, [Effect.logError, Effect.ack])) ∧
    (∀ message,
      (stepCommand st now captureOk (Command.processLogMessage message)).2.countP isAck = 1) :=
  by
  refine ⟨?_, ?_, ?_, ?_⟩
  · intro message hpre
    rw [stepCommand_processLogMessage, update_of_not_target st now captureOk message hpre]
    simp
  · intro message hpre hlen
    rw [stepCommand_processLogMessage, update_of_bad_arity st now captureOk message hpre hlen]
    simp
  · intro message p0 p1 p2 hpre hsp hfail
    rw [stepCommand_processLogMessage,
      update_of_parse_fail st now captureOk message p0 p1 p2 hpre hsp hfail]
    simp
  · intro message
    rw [stepCommand_processLogMessage]
    rw [List.countP_append, List.countP_append, update_countP_isAck]
    cases h : (update st now captureOk message).2.2 <;> simp [isAck]

/-- C9 counterexample: the CLI derived from `Args` in `main.rs` has
neither a `--test-mode` nor an `--infractions-dir` flag (the directory
flag is `--photos-dir`), and `--serial-port` and `--elf-path` are plain
required fields. -/
theorem cli_lacks_test_mode_flag :
    "--test-mode" ∉ cliFlags ∧ "--infractions-dir" ∉ cliFlags ∧
    "--serial-port" ∈ cliFlags ∧ "--elf-path" ∈ cliFlags ∧ "--photos-dir" ∈ cliFlags := by
  decide

/-- C9 (amended): the CLI accepts exactly the five required flags
`--api-endpoint`, `--api-key`, `--serial-port`, `--elf-path` and
`--photos-dir` (there is no test mode and no `--infractions-dir`), and the
process exits non-zero exactly when the photos directory does not exist or
is not a directory. -/
theorem cli_surface_and_dir_check :
    cliFlags = ["--api-endpoint", "--api-key", "--serial-port", "--elf-path", "--photos-dir"] ∧
    (∀ pexists pdir : Bool, argsCheck pexists pdir = false ↔ (pexists = false ∨ pdir = false)) := by
  refine ⟨rfl, ?_⟩
  decide

/-- C10: an `UpdateConfig` command overwrites exactly the four
configuration fields with the values of the received `RadarConfig`,
produces no effect, and leaves `last_infraction`, `photos_dir` and
`test_mode` (and, being reified as effects, the uploader and broadcast
handles) unchanged. -/
theorem update_config_frame (st : InfractionRecorderInner) (now : Int) (captureOk : Bool)
    (cfg : RadarConfig) :
    stepCommand st now captureOk (Command.updateConfig cfg) =
      ({ st with
          authorized_speed := cfg.authorized_speed
          min_dist := cfg.min_dist
          max_dist := cfg.max_dist
          trigger_cooldown_ms := cfg.trigger_cooldown }, []) ∧
    (stepCommand st now captureOk (Command.updateConfig cfg)).1.last_infraction =
      st.last_infraction ∧
    (stepCommand st now captureOk (Command.updateConfig cfg)).1.photos_dir = st.photos_dir ∧
    (stepCommand st now captureOk (Command.updateConfig cfg)).1.test_mode = st.test_mode :=
  ⟨rfl, rfl, rfl, rfl⟩
